import Mathlib

/-
Verification of the OpenAI provider adapter
(src/src/evosuite_providers/openai.py) against its specification.

The provider is a stub: construction resolves configuration, validate_config
performs a length heuristic on the api key, generate formats a mock string,
activate is a no-op and deactivate releases the (never populated) client
handle.  All operations are modelled as pure functions on an explicit
provider state; the asynchronous wrappers in the source never suspend, so
they are embedded as ordinary functions.
-/

namespace EvosuiteProviders

/-- JSON-like values, used to embed the config_schema literal that appears in
the metadata descriptor.  Decimal literals are represented as a mantissa and
a power-of-ten denominator exponent, so 0.7 is `dec 7 1`. -/
inductive Json where
  | str : String → Json
  | int : Int → Json
  | dec : Int → Nat → Json
  | arr : List Json → Json
  | obj : List (String × Json) → Json

/-- The immutable metadata descriptor `PluginMetadata` returned by the
`metadata` property of the provider. -/
structure PluginMetadata where
  name : String
  version : String
  description : String
  author : String
  provides : List String
  requires_core : String
  config_schema : Json

/-- The configuration mapping, restricted to the keys the source reads:
`api_key`, `model`, `base_url`, `max_tokens`, `temperature`.  An absent field
models both a missing key and an explicit Python `None` value, which the
source treats identically through `dict.get`. -/
structure Config where
  api_key : Option String := none
  model : Option String := none
  base_url : Option String := none
  max_tokens : Option Int := none
  temperature : Option Json := none

/-- The call-time context mapping `Dict[str, Any]`; the source accepts it and
never reads it, so the value type is irrelevant and rendered as strings. -/
abbrev Context := List (String × String)

/-- The state of an `OpenAIProvider` instance: the stored configuration, the
resolved fields assigned in `__init__`, and the optional client handle
`_client` (an opaque resource, hence `Option Unit`). -/
structure OpenAIProvider where
  config : Config
  api_key : Option String
  model : String
  base_url : String
  _client : Option Unit

/-- Python truthiness of an optional string: `None` and the empty string are
falsy, every other string is truthy. -/
def truthyStr : Option String → Bool
  | none => false
  | some s => !(s == "")

/-- Python `a or b` on optional strings: `a` if it is truthy, else `b`.
Embeds `self.config.get("api_key") or os.getenv("OPENAI_API_KEY")`. -/
def pyOrStr (a b : Option String) : Option String :=
  if truthyStr a then a else b

/-- `OpenAIProvider.__init__`.  `env_openai_api_key` is the value of the
process environment variable OPENAI_API_KEY (`none` when unset).  The
assignment of `self.config` performed by the base class `Provider.__init__`
is not under src/; it is modelled from the spec: construction accepts an
optional configuration mapping, stored as given (empty when omitted). -/
def OpenAIProvider.init (config : Option Config) (env_openai_api_key : Option String) :
    OpenAIProvider :=
  let cfg := config.getD {}
  { config := cfg
    api_key := pyOrStr cfg.api_key env_openai_api_key
    model := cfg.model.getD "gpt-3.5-turbo"
    base_url := cfg.base_url.getD "https://api.openai.com/v1"
    _client := none }

/-- The `metadata` property: a static descriptor, independent of the state. -/
def OpenAIProvider.metadata (_p : OpenAIProvider) : PluginMetadata :=
  { name := "openai_provider"
    version := "0.2.0"
    description := "OpenAI LLM provider for text generation"
    author := "EvoSuite Team"
    provides := ["provider.openai", "provider.llm"]
    requires_core := ">=0.2,<0.3"
    config_schema := Json.obj
      [ ("type", Json.str "object")
      , ("properties", Json.obj
          [ ("api_key", Json.obj [("type", Json.str "string"),
              ("description", Json.str "OpenAI API key")])
          , ("model", Json.obj [("type", Json.str "string"),
              ("default", Json.str "gpt-3.5-turbo")])
          , ("base_url", Json.obj [("type", Json.str "string"),
              ("default", Json.str "https://api.openai.com/v1")])
          , ("max_tokens", Json.obj [("type", Json.str "integer"),
              ("default", Json.int 1000)])
          , ("temperature", Json.obj [("type", Json.str "number"),
              ("default", Json.dec 7 1)]) ])
      , ("required", Json.arr [Json.str "api_key"]) ] }

/-- `validate_config`: false when `not self.api_key` (absent or empty key),
otherwise `len(self.api_key) > 10`.  The `try` body raises no exception in
the stub (no real API call is made), so the `except` branch returning false
is unreachable and does not appear. -/
def OpenAIProvider.validate_config (p : OpenAIProvider) : Bool :=
  match p.api_key with
  | none => false
  | some k => if k = "" then false else decide (k.length > 10)

/-- `generate(prompt, context)`: raises ValueError "Invalid OpenAI
configuration" when validation fails (modelled as `Except.error`), otherwise
reads `max_tokens` and `temperature` from the configuration (unused) and
returns the mock string.  The method assigns no attribute, so the provider
state is returned unchanged on both paths. -/
def OpenAIProvider.generate (p : OpenAIProvider) (prompt : String) (_context : Context) :
    Except String String × OpenAIProvider :=
  if p.validate_config = false then
    (Except.error "Invalid OpenAI configuration", p)
  else
    let _max_tokens := p.config.max_tokens.getD 1000
    let _temperature := p.config.temperature.getD (Json.dec 7 1)
    (Except.ok ("[OpenAI " ++ p.model ++ "] Generated response for prompt: "
        ++ prompt.take 50 ++ "..."), p)

/-- `activate(context)`: the `try` body is `pass` (the client import is
commented out in the source), so the ImportError branch raising the
dependency-missing RuntimeError is unreachable; the call succeeds and
assigns nothing. -/
def OpenAIProvider.activate (p : OpenAIProvider) (_context : Context) :
    Except String Unit × OpenAIProvider :=
  (Except.ok (), p)

/-- `deactivate(context)`: `if self._client: self._client = None`. -/
def OpenAIProvider.deactivate (p : OpenAIProvider) (_context : Context) : OpenAIProvider :=
  if p._client.isSome then { p with _client := none } else p

/-- One call on the provider interface, for reasoning about call sequences. -/
inductive Op where
  | metadata
  | validate
  | generate (prompt : String) (ctx : Context)
  | activate (ctx : Context)
  | deactivate (ctx : Context)

/-- The provider state after one interface call (queries leave it as is). -/
def step (p : OpenAIProvider) : Op → OpenAIProvider
  | Op.metadata => p
  | Op.validate => p
  | Op.generate prompt ctx => (p.generate prompt ctx).2
  | Op.activate ctx => (p.activate ctx).2
  | Op.deactivate ctx => p.deactivate ctx

/-- The provider state after a sequence of interface calls. -/
def run (p : OpenAIProvider) (ops : List Op) : OpenAIProvider :=
  List.foldl step p ops

/-- When the client handle is absent, every interface call leaves the whole
state unchanged. -/
lemma step_eq_of_client_none (p : OpenAIProvider) (op : Op) (h : p._client = none) :
    step p op = p := by
  cases op with
  | metadata => rfl
  | validate => rfl
  | generate prompt ctx =>
      show (p.generate prompt ctx).2 = p
      unfold OpenAIProvider.generate
      by_cases hv : p.validate_config = false <;> simp [hv]
  | activate ctx => rfl
  | deactivate ctx =>
      show p.deactivate ctx = p
      unfold OpenAIProvider.deactivate
      simp [h]

/-- When the client handle is absent, any sequence of interface calls leaves
the whole state unchanged. -/
lemma run_eq_of_client_none (ops : List Op) (p : OpenAIProvider) (h : p._client = none) :
    run p ops = p := by
  induction ops generalizing p with
  | nil => rfl
  | cons op rest ih =>
      show run (step p op) rest = p
      rw [step_eq_of_client_none p op h]
      exact ih p h

/-- Construction leaves the client handle absent. -/
lemma init_client_none (config : Option Config) (env : Option String) :
    (OpenAIProvider.init config env)._client = none := rfl

/-- C1: validate_config returns true if and only if the resolved api_key is
present with length strictly greater than 10 characters; in particular it
returns false when the key is absent or has length at most 10. -/
theorem C1_validate_config_iff_long_key (p : OpenAIProvider) :
    p.validate_config = true ↔ ∃ k, p.api_key = some k ∧ 10 < k.length := by
  unfold OpenAIProvider.validate_config
  cases h : p.api_key with
  | none => simp
  | some k =>
      by_cases hk : k = ""
      · subst hk
        simp
      · simp [hk]

/-- C2: generate fails with the configuration-invalid error exactly when
validate_config is false, and the provider state is unchanged on every path,
so in particular no work is performed on the error path. -/
theorem C2_generate_error_iff_invalid (p : OpenAIProvider) (prompt : String) (ctx : Context) :
    ((p.generate prompt ctx).1 = Except.error "Invalid OpenAI configuration"
      ↔ p.validate_config = false)
    ∧ (p.generate prompt ctx).2 = p := by
  unfold OpenAIProvider.generate
  by_cases h : p.validate_config = false <;> simp [h]

/-- C3: on a configuration that validates, generate returns a string that
contains the configured model name and the first 50 characters of the
prompt as substrings. -/
theorem C3_generate_contains_model_and_prompt (p : OpenAIProvider) (prompt : String)
    (ctx : Context) (h : p.validate_config = true) :
    ∃ r, (p.generate prompt ctx).1 = Except.ok r
      ∧ (∃ a b, r = a ++ p.model ++ b)
      ∧ (∃ c d, r = c ++ prompt.take 50 ++ d) := by
  refine ⟨"[OpenAI " ++ p.model ++ "] Generated response for prompt: "
      ++ prompt.take 50 ++ "...", ?_, ?_, ?_⟩
  · unfold OpenAIProvider.generate
    simp [h]
  · exact ⟨"[OpenAI ", "] Generated response for prompt: " ++ prompt.take 50 ++ "...", by
      simp [String.append_assoc]⟩
  · exact ⟨"[OpenAI " ++ p.model ++ "] Generated response for prompt: ", "...", by
      simp [String.append_assoc]⟩

/-- Witness for C3 at a concrete valid configuration and prompt. -/
theorem C3_witness :
    ∃ r, ((OpenAIProvider.init (some { api_key := some "sk-1234567890abcdef" })
        none).generate "Hello world" []).1 = Except.ok r
      ∧ (∃ a b, r = a ++ (OpenAIProvider.init (some { api_key := some "sk-1234567890abcdef" })
            none).model ++ b)
      ∧ (∃ c d, r = c ++ ("Hello world" : String).take 50 ++ d) :=
  C3_generate_contains_model_and_prompt
    (OpenAIProvider.init (some { api_key := some "sk-1234567890abcdef" }) none)
    "Hello world" [] (by decide)

set_option maxRecDepth 10000

/-- C4: for config with api_key "sk-1234567890abcdef", any environment and
any context, generate on prompt "Hello world" returns a string starting with
"[OpenAI gpt-3.5-turbo] Generated response for prompt: Hello world...". -/
theorem C4_concrete_hello_world (env : Option String) (ctx : Context) :
    ∃ r, ((OpenAIProvider.init (some { api_key := some "sk-1234567890abcdef" })
        env).generate "Hello world" ctx).1 = Except.ok r
      ∧ ∃ t, r = "[OpenAI gpt-3.5-turbo] Generated response for prompt: Hello world..." ++ t := by
  refine ⟨"[OpenAI gpt-3.5-turbo] Generated response for prompt: Hello world...", ?_, "", ?_⟩
  · rfl
  · rfl

/-- C5 counterexample: a config that supplies api_key with the empty string.
Python truthiness makes the constructor fall back to the environment
variable, so the resolved key is not the supplied config value, refuting the
claim that the resolved key equals the config value whenever one is
supplied. -/
theorem C5_counterexample :
    (OpenAIProvider.init (some { api_key := some "" }) (some "ENV_FALLBACK_KEY")).api_key
        ≠ some ""
    ∧ (OpenAIProvider.init (some { api_key := some "" }) (some "ENV_FALLBACK_KEY")).api_key
        = some "ENV_FALLBACK_KEY" := by
  constructor
  · decide
  · rfl

/-- C5 amended: the resolved api_key equals the config value when the config
supplies a non-empty key, and equals the environment variable value when the
config key is absent or empty (Python falsy). -/
theorem C5_amended_key_resolution (cfg : Config) (env : Option String) :
    (∀ k, cfg.api_key = some k → k ≠ "" →
        (OpenAIProvider.init (some cfg) env).api_key = some k)
    ∧ ((cfg.api_key = none ∨ cfg.api_key = some "") →
        (OpenAIProvider.init (some cfg) env).api_key = env) := by
  constructor
  · intro k hk hne
    show pyOrStr cfg.api_key env = some k
    unfold pyOrStr truthyStr
    rw [hk]
    simp [hne]
  · intro h
    show pyOrStr cfg.api_key env = env
    rcases h with h | h <;> rw [h] <;> rfl

/-- Witness for C5 amended: both branches at concrete inputs. -/
theorem C5_witness :
    (OpenAIProvider.init (some { api_key := some "sk-live-key-123" })
        (some "envkey")).api_key = some "sk-live-key-123"
    ∧ (OpenAIProvider.init (some { api_key := none }) (some "envkey")).api_key
        = some "envkey" :=
  ⟨(C5_amended_key_resolution { api_key := some "sk-live-key-123" } (some "envkey")).1
      "sk-live-key-123" rfl (by decide),
   (C5_amended_key_resolution { api_key := none } (some "envkey")).2 (Or.inl rfl)⟩

/-- C6: when the client handle is absent, deactivate returns the state
unchanged (and the model raises no error: deactivate is total), and
deactivate twice is the same as deactivate once on any state. -/
theorem C6_deactivate_idempotent (p : OpenAIProvider) (c1 c2 : Context) :
    (p._client = none → p.deactivate c1 = p)
    ∧ (p.deactivate c1).deactivate c2 = p.deactivate c1 := by
  constructor
  · intro h
    unfold OpenAIProvider.deactivate
    simp [h]
  · unfold OpenAIProvider.deactivate
    cases h : p._client <;> simp [h]

/-- Witness for C6 at a freshly constructed provider, whose handle is
absent. -/
theorem C6_witness :
    ((OpenAIProvider.init none none).deactivate [] = OpenAIProvider.init none none)
    ∧ (((OpenAIProvider.init none none).deactivate []).deactivate []
        = (OpenAIProvider.init none none).deactivate []) :=
  ⟨(C6_deactivate_idempotent (OpenAIProvider.init none none) [] []).1 rfl,
   (C6_deactivate_idempotent (OpenAIProvider.init none none) [] []).2⟩

/-- C7: in every state reachable from construction by any sequence of
interface calls the client handle is absent; the stub never populates it, so
in particular it is absent after activate and after a following
deactivate. -/
theorem C7_client_never_populated (config : Option Config) (env : Option String)
    (ops : List Op) :
    (run (OpenAIProvider.init config env) ops)._client = none := by
  rw [run_eq_of_client_none ops _ (init_client_none config env)]
  exact init_client_none config env

/-- C8: on a configuration that validates, generate succeeds and returns the
same result after any sequence of prior interface calls (in particular after
activate or deactivate) as it does directly after construction. -/
theorem C8_generate_ignores_activation (config : Option Config) (env : Option String)
    (ops : List Op) (prompt : String) (ctx : Context)
    (h : (OpenAIProvider.init config env).validate_config = true) :
    (run (OpenAIProvider.init config env) ops).generate prompt ctx
        = (OpenAIProvider.init config env).generate prompt ctx
    ∧ ∃ s, ((OpenAIProvider.init config env).generate prompt ctx).1 = Except.ok s := by
  constructor
  · rw [run_eq_of_client_none ops _ (init_client_none config env)]
  · refine ⟨"[OpenAI " ++ (OpenAIProvider.init config env).model
        ++ "] Generated response for prompt: " ++ prompt.take 50 ++ "...", ?_⟩
    unfold OpenAIProvider.generate
    simp [h]

/-- Witness for C8: a valid concrete configuration, with an activate and a
deactivate performed before generate. -/
theorem C8_witness :
    (run (OpenAIProvider.init (some { api_key := some "sk-1234567890abcdef" }) none)
          [Op.activate [], Op.deactivate []]).generate "Hi" []
        = (OpenAIProvider.init (some { api_key := some "sk-1234567890abcdef" })
            none).generate "Hi" []
    ∧ ∃ s, ((OpenAIProvider.init (some { api_key := some "sk-1234567890abcdef" })
          none).generate "Hi" []).1 = Except.ok s :=
  C8_generate_ignores_activation (some { api_key := some "sk-1234567890abcdef" }) none
    [Op.activate [], Op.deactivate []] "Hi" [] (by decide)

/-- C9: activate never fails (the dependency-missing branch is unreachable in
the stub) and leaves every field of the provider unchanged. -/
theorem C9_activate_noop (p : OpenAIProvider) (ctx : Context) :
    (p.activate ctx).1 = Except.ok ()
    ∧ (p.activate ctx).2.config = p.config
    ∧ (p.activate ctx).2.api_key = p.api_key
    ∧ (p.activate ctx).2.model = p.model
    ∧ (p.activate ctx).2.base_url = p.base_url
    ∧ (p.activate ctx).2._client = p._client :=
  ⟨rfl, rfl, rfl, rfl, rfl, rfl⟩

/-- C10: for two providers with the same model, both with validating
configurations, generate returns the same result for the same prompt under
any two contexts; the context, api_key, max_tokens and temperature values do
not influence the output. -/
theorem C10_output_depends_only_on_model_and_prompt (p q : OpenAIProvider)
    (prompt : String) (c1 c2 : Context) (hm : p.model = q.model)
    (hp : p.validate_config = true) (hq : q.validate_config = true) :
    (p.generate prompt c1).1 = (q.generate prompt c2).1 := by
  unfold OpenAIProvider.generate
  simp [hp, hq, hm]

/-- Witness for C10: two providers that differ in api_key, max_tokens,
temperature and call context, but share the default model. -/
theorem C10_witness :
    ((OpenAIProvider.init
        (some { api_key := some "sk-1234567890abcdef", max_tokens := some 5 })
        none).generate "test prompt" [("user", "alice")]).1
      = ((OpenAIProvider.init
          (some { api_key := some "another-long-key-xyz",
                  temperature := some (Json.int 1) })
          none).generate "test prompt" []).1 :=
  C10_output_depends_only_on_model_and_prompt
    (OpenAIProvider.init
      (some { api_key := some "sk-1234567890abcdef", max_tokens := some 5 }) none)
    (OpenAIProvider.init
      (some { api_key := some "another-long-key-xyz",
              temperature := some (Json.int 1) }) none)
    "test prompt" [("user", "alice")] [] rfl (by decide) (by decide)

end EvosuiteProviders
